import Mathlib

/-!
# Verification of the web-app-starter connection-lifecycle contract

Shallow embedding of the two source files of `unqdlphn/web-app-starter`:

* `src/app.py` — a Flask request handler `index` that opens a SQLite
  connection via `get_db_connection`, does nothing with it (the query step is
  a placeholder comment), closes it, and returns `render_template('index.html')`.
* `src/streamlit_app.py` — a Streamlit dashboard whose `get_data` opens a
  SQLite connection, runs `pd.read_sql_query("SELECT * FROM your_table", conn)`,
  closes the connection and returns the data frame; the script then calls
  `st.dataframe(df)`.

The embedding threads an explicit `World` state through every call.  The
world records the contents of the database file at the fixed path
`data/database.db`, the set of currently open connection handles, a fresh
handle counter, and an event trace (connection opens/closes, queries,
renders).  Fallible steps return `Except DBError`; an error result leaves
the world as it was at the moment the exception propagated, so that leaked
resources remain observable.
-/

/-- A database row: a mapping from column name to value (`sqlite3.Row`
row factory / one record of the pandas data frame). -/
abbrev Row := List (String × String)

/-- Contents of the embedded SQLite database file: named tables, each an
ordered list of rows (native row order). -/
structure Database where
  tables : List (String × List Row)
deriving Repr, DecidableEq

/-- Rendered outputs: the fixed view template returned by the Flask handler,
or the data frame handed to the Streamlit display surface. -/
inductive Output where
  | page (template : String)
  | dataframe (rows : List Row)
deriving Repr, DecidableEq

/-- Observable events emitted during a run. -/
inductive Event where
  | connOpen (id : Nat)
  | connClose (id : Nat)
  | query (sql : String) (conn : Nat)
  | render (out : Output)
deriving Repr, DecidableEq

/-- The spec's error taxonomy: connection-error (database file missing or
inaccessible, raised at connection-open time) and query-error (referenced
table absent or query malformed). -/
inductive DBError where
  | connectionError
  | queryError
deriving Repr, DecidableEq

/-- Program state threaded through every embedded call.  `fs` is the
database file at the fixed relative path `data/database.db` (`none` when the
file is missing); `nextConn` is the fresh connection-handle counter;
`openConns` lists the currently open handles; `events` is the trace. -/
structure World where
  fs : Option Database
  nextConn : Nat
  openConns : List Nat
  events : List Event
deriving Repr, DecidableEq

/-- Modelled from the spec: `sqlite3.connect('data/database.db')`.  The
library call itself is not part of this repository; the spec's taxonomy
says it fails with a connection-error when the database file is missing or
inaccessible, and otherwise yields a fresh, exclusively-owned handle. -/
def sqlite3_connect (w : World) : Except DBError Nat × World :=
  match w.fs with
  | none => (.error .connectionError, w)
  | some _ =>
      let id := w.nextConn
      (.ok id,
        { w with
          nextConn := id + 1
          openConns := id :: w.openConns
          events := w.events ++ [.connOpen id] })

/-- Embedding of `conn.close()`: the handle `id` is no longer open. -/
def conn_close (id : Nat) (w : World) : World :=
  { w with
    openConns := w.openConns.erase id
    events := w.events ++ [.connClose id] }

/-- Modelled from the spec: `pd.read_sql_query("SELECT * FROM " ++ table, conn)`.
The library call is not part of this repository; the spec says a select-all
query materializes the entire result set in native row order, and fails with
a query-error when the referenced table is absent. -/
def read_sql_query (table : String) (conn : Nat) (w : World) :
    Except DBError (List Row) × World :=
  let w := { w with events := w.events ++ [Event.query ("SELECT * FROM " ++ table) conn] }
  match w.fs with
  | none => (.error .queryError, w)
  | some db =>
      match db.tables.lookup table with
      | none => (.error .queryError, w)
      | some rows => (.ok rows, w)

/-- Modelled from the spec: `render_template('index.html')` produces the
fixed named view (content undefined, out of scope). -/
def render_template (name : String) : Output :=
  .page name

/-- Embedding of `st.dataframe(df)`: render the data frame to the
display surface. -/
def st_dataframe (df : List Row) (w : World) : World :=
  { w with events := w.events ++ [.render (.dataframe df)] }

/-- Embedding of `src/app.py` lines 6–9: `get_db_connection` connects to
`data/database.db` and sets `conn.row_factory = sqlite3.Row` (rows are
already name-indexed in this model, so the assignment has no further
observable effect). -/
def get_db_connection (w : World) : Except DBError Nat × World :=
  sqlite3_connect w

/-- Embedding of `src/app.py` lines 11–17: the `index` route handler.  It opens a
connection, performs no query (the fetch step is a placeholder comment),
closes the connection, and returns the rendered `index.html` template. -/
def index (w : World) : Except DBError Output × World :=
  match get_db_connection w with
  | (.error e, w) => (.error e, w)
  | (.ok conn, w) =>
      let w := conn_close conn w
      (.ok (render_template "index.html"), w)

/-- Embedding of `src/streamlit_app.py` lines 7–12: `get_data`.  Faithful to the source:
`conn.close()` textually follows `pd.read_sql_query`, with no `with` block
or `try/finally`, so an exception raised by the query propagates before the
close is reached. -/
def get_data (w : World) : Except DBError (List Row) × World :=
  match sqlite3_connect w with
  | (.error e, w) => (.error e, w)
  | (.ok conn, w) =>
      match read_sql_query "your_table" conn w with
      | (.error e, w) => (.error e, w)
      | (.ok df, w) =>
          let w := conn_close conn w
          (.ok df, w)

/-- Embedding of `src/streamlit_app.py` lines 14–15 (module top level): run the dashboard
script — `df = get_data()` followed by `st.dataframe(df)`.  An exception in
`get_data` terminates the script before any rendering. -/
def dashboard_run (w : World) : Except DBError Unit × World :=
  match get_data w with
  | (.error e, w) => (.error e, w)
  | (.ok df, w) => (.ok (), st_dataframe df w)

/-- The connection handles opened in a trace segment. -/
def connsOpened : List Event → List Nat
  | [] => []
  | .connOpen id :: es => id :: connsOpened es
  | _ :: es => connsOpened es

/-- The handles opened between an initial world and a later world reached
from it (events are append-only, so the new segment is the suffix). -/
def openedDuring (w w' : World) : List Nat :=
  connsOpened (w'.events.drop w.events.length)

/-- Whether an event is a render (display-surface output). -/
def Event.isRender : Event → Bool
  | .render _ => true
  | _ => false

/-- Whether an event is a database query. -/
def Event.isQuery : Event → Bool
  | .query _ _ => true
  | _ => false

/-! ## Concrete worlds used as witnesses and counterexamples -/

/-- A world in which the database file is missing. -/
def wMissing : World := ⟨none, 0, [], []⟩

/-- A world in which the database file exists but contains no tables. -/
def wEmptyDB : World := ⟨some ⟨[]⟩, 0, [], []⟩

/-- The three rows of the spec's sample scenario for `your_table`. -/
def sampleRows : List Row := [[("id", "1")], [("id", "2")], [("id", "3")]]

/-- A world in which `your_table` holds exactly `sampleRows`. -/
def wTab : World := ⟨some ⟨[("your_table", sampleRows)]⟩, 0, [], []⟩

/-! ## Helper lemmas shared between claims -/

/-- The handler preserves the set of open connections: whatever it opens, it
closes before returning. -/
lemma index_preserves_openConns (w : World) :
    (index w).2.openConns = w.openConns := by
  cases hfs : w.fs <;>
    simp [index, get_db_connection, sqlite3_connect, conn_close, hfs]

/-- The handler never touches the database file. -/
lemma index_preserves_fs (w : World) : (index w).2.fs = w.fs := by
  cases hfs : w.fs <;>
    simp [index, get_db_connection, sqlite3_connect, conn_close, hfs]

/-- The dashboard run never touches the database file. -/
lemma dashboard_run_preserves_fs (w : World) :
    (dashboard_run w).2.fs = w.fs := by
  cases hfs : w.fs with
  | none =>
      simp [dashboard_run, get_data, sqlite3_connect, hfs]
  | some db =>
      cases hlk : db.tables.lookup "your_table" <;>
        simp [dashboard_run, get_data, sqlite3_connect, read_sql_query,
          conn_close, st_dataframe, hfs, hlk]

/-- The connections the handler opens during one invocation: none when the
file is missing, exactly the fresh handle `w.nextConn` otherwise. -/
lemma index_openedDuring (w : World) :
    openedDuring w (index w).2 =
      match w.fs with
      | none => []
      | some _ => [w.nextConn] := by
  cases hfs : w.fs <;>
    simp [openedDuring, index, get_db_connection, sqlite3_connect, conn_close,
      connsOpened, hfs]

/-- The handler's fresh-handle counter after one invocation. -/
lemma index_nextConn (w : World) :
    (index w).2.nextConn =
      match w.fs with
      | none => w.nextConn
      | some _ => w.nextConn + 1 := by
  cases hfs : w.fs <;>
    simp [index, get_db_connection, sqlite3_connect, conn_close, hfs]

/-- The connections the dashboard run opens: none when the file is missing,
exactly the fresh handle `w.nextConn` otherwise. -/
lemma dashboard_openedDuring (w : World) :
    openedDuring w (dashboard_run w).2 =
      match w.fs with
      | none => []
      | some _ => [w.nextConn] := by
  cases hfs : w.fs with
  | none =>
      simp [openedDuring, dashboard_run, get_data, sqlite3_connect, connsOpened, hfs]
  | some db =>
      cases hlk : db.tables.lookup "your_table" <;>
        simp [openedDuring, dashboard_run, get_data, sqlite3_connect,
          read_sql_query, conn_close, st_dataframe, connsOpened, hfs, hlk]

/-- The dashboard run's fresh-handle counter. -/
lemma dashboard_nextConn (w : World) :
    (dashboard_run w).2.nextConn =
      match w.fs with
      | none => w.nextConn
      | some _ => w.nextConn + 1 := by
  cases hfs : w.fs with
  | none =>
      simp [dashboard_run, get_data, sqlite3_connect, hfs]
  | some db =>
      cases hlk : db.tables.lookup "your_table" <;>
        simp [dashboard_run, get_data, sqlite3_connect, read_sql_query,
          conn_close, st_dataframe, hfs, hlk]

/-! ## Claim theorems -/

/-- C1, counterexample: the claim that `get_data` releases its connection
unconditionally on every exit path is false.  In the world `wEmptyDB` the
database opens but `your_table` is absent, the query step fails, and the
connection handle `0` opened by the call is still open when the operation
ends — the source's `conn.close()` has no scope guard and is never reached. -/
theorem get_data_leaks_connection_on_query_failure :
    (get_data wEmptyDB).1 = .error .queryError ∧
    (get_data wEmptyDB).2.openConns = [0] ∧
    wEmptyDB.openConns = [] :=
  ⟨rfl, rfl, rfl⟩

/-- C1, amended: the connection opened by `get_data` is released before the
operation ends on every normal-completion path; when the query step fails,
the exception propagates before the close and the connection is not
released by `get_data`. -/
theorem get_data_closes_connection_on_success (w : World) (df : List Row)
    (w' : World) (h : get_data w = (.ok df, w')) :
    w'.openConns = w.openConns := by
  cases hfs : w.fs with
  | none => simp [get_data, sqlite3_connect, hfs] at h
  | some db =>
      cases hlk : db.tables.lookup "your_table" with
      | none =>
          simp [get_data, sqlite3_connect, read_sql_query, hfs, hlk] at h
      | some rows =>
          simp [get_data, sqlite3_connect, read_sql_query, conn_close, hfs,
            hlk, Prod.ext_iff] at h
          obtain ⟨-, h2⟩ := h
          subst h2
          simp

/-- Witness for the amended C1 at the concrete world `wTab`. -/
theorem get_data_closes_connection_on_success_witness :
    (get_data wTab).2.openConns = wTab.openConns :=
  get_data_closes_connection_on_success wTab sampleRows (get_data wTab).2 rfl

/-- C2: when the database file is missing, both the request handler and the
dashboard run fail with a connection-error (raised at connection-open time)
and perform no partial work — the world is returned unchanged. -/
theorem missing_db_file_connection_error (w : World) (h : w.fs = none) :
    index w = (.error .connectionError, w) ∧
    dashboard_run w = (.error .connectionError, w) := by
  refine ⟨?_, ?_⟩ <;>
    simp [index, get_db_connection, dashboard_run, get_data, sqlite3_connect, h]

/-- Witness for C2 at the concrete world `wMissing`. -/
theorem missing_db_file_connection_error_witness :
    wMissing.fs = none ∧
    index wMissing = (.error .connectionError, wMissing) ∧
    dashboard_run wMissing = (.error .connectionError, wMissing) :=
  ⟨rfl, missing_db_file_connection_error wMissing rfl⟩

/-- C3: every invocation of the request handler closes the connection it
opened before returning, regardless of outcome — the set of open
connections after `index` equals the set before. -/
theorem index_connection_closed_before_return (w : World) :
    (index w).2.openConns = w.openConns :=
  index_preserves_openConns w

/-- C4: against a database whose table `your_table` contains exactly the
rows `rows`, `get_data` returns exactly those rows, in native order, with
no rows added, removed, or transformed. -/
theorem get_data_returns_exact_rows (w : World) (db : Database)
    (rows : List Row) (hfs : w.fs = some db)
    (hlk : db.tables.lookup "your_table" = some rows) :
    (get_data w).1 = .ok rows := by
  simp [get_data, sqlite3_connect, read_sql_query, conn_close, hfs, hlk]

/-- Witness for C4: the spec's three-row scenario at `wTab`. -/
theorem get_data_returns_exact_rows_witness :
    wTab.fs = some ⟨[("your_table", sampleRows)]⟩ ∧
    (get_data wTab).1 = .ok sampleRows :=
  ⟨rfl, get_data_returns_exact_rows wTab ⟨[("your_table", sampleRows)]⟩
    sampleRows rfl rfl⟩

/-- C5: when the database opens but `your_table` is absent, the dashboard
run fails with a query-error and produces no rendered output — no render
event is added to the trace. -/
theorem dashboard_query_error_no_render (w : World) (db : Database)
    (hfs : w.fs = some db) (hlk : db.tables.lookup "your_table" = none) :
    (dashboard_run w).1 = .error .queryError ∧
    (dashboard_run w).2.events.filter Event.isRender =
      w.events.filter Event.isRender := by
  simp [dashboard_run, get_data, sqlite3_connect, read_sql_query, hfs, hlk,
    List.filter_append, Event.isRender]

/-- Witness for C5 at the concrete world `wEmptyDB`. -/
theorem dashboard_query_error_no_render_witness :
    wEmptyDB.fs = some ⟨[]⟩ ∧
    (dashboard_run wEmptyDB).1 = .error .queryError ∧
    (dashboard_run wEmptyDB).2.events.filter Event.isRender =
      wEmptyDB.events.filter Event.isRender :=
  ⟨rfl, dashboard_query_error_no_render wEmptyDB ⟨[]⟩ rfl rfl⟩

/-- C6: every normally-completing invocation of the request handler returns
the fixed rendered view `index.html` and issues no database query — the
query events of the trace are unchanged, and the returned view is a
constant independent of the database contents. -/
theorem index_fixed_view_no_query (w : World) (db : Database)
    (hfs : w.fs = some db) :
    (index w).1 = .ok (render_template "index.html") ∧
    (index w).2.events.filter Event.isQuery =
      w.events.filter Event.isQuery := by
  simp [index, get_db_connection, sqlite3_connect, conn_close, hfs,
    List.filter_append, Event.isQuery]

/-- Witness for C6 at the concrete world `wTab`. -/
theorem index_fixed_view_no_query_witness :
    wTab.fs = some ⟨[("your_table", sampleRows)]⟩ ∧
    (index wTab).1 = .ok (render_template "index.html") ∧
    (index wTab).2.events.filter Event.isQuery =
      wTab.events.filter Event.isQuery :=
  ⟨rfl, index_fixed_view_no_query wTab ⟨[("your_table", sampleRows)]⟩ rfl⟩

/-- C7: the dashboard run performs no writes to the database — for every
world, the persisted database contents after `dashboard_run` are identical
to the contents before. -/
theorem dashboard_run_no_writes (w : World) :
    (dashboard_run w).2.fs = w.fs :=
  dashboard_run_preserves_fs w

/-- C8: connections are exclusively owned by the unit that created them.
The handler closes everything it opens before returning; each invocation
opens only fresh handles drawn from the interval between the unit's initial
and final counter values, so no two units can share a connection instance —
in particular, a handle opened by one handler invocation is never opened by
the immediately following invocation. -/
theorem connection_exclusive_ownership (w : World) :
    (index w).2.openConns = w.openConns ∧
    (∀ id, id ∈ openedDuring w (index w).2 →
      w.nextConn ≤ id ∧ id < (index w).2.nextConn) ∧
    (∀ id, id ∈ openedDuring w (dashboard_run w).2 →
      w.nextConn ≤ id ∧ id < (dashboard_run w).2.nextConn) ∧
    (∀ id, id ∈ openedDuring w (index w).2 →
      id ∉ openedDuring (index w).2 (index (index w).2).2) := by
  refine ⟨index_preserves_openConns w, ?_, ?_, ?_⟩
  · intro id hid
    cases hfs : w.fs with
    | none => simp [index_openedDuring, hfs] at hid
    | some db =>
        simp [index_openedDuring, hfs] at hid
        subst hid
        simp [index_nextConn, hfs]
  · intro id hid
    cases hfs : w.fs with
    | none => simp [dashboard_openedDuring, hfs] at hid
    | some db =>
        simp [dashboard_openedDuring, hfs] at hid
        subst hid
        simp [dashboard_nextConn, hfs]
  · intro id hid hmem
    cases hfs : w.fs with
    | none => simp [index_openedDuring, hfs] at hid
    | some db =>
        simp [index_openedDuring, hfs] at hid
        subst hid
        have hfs2 : (index w).2.fs = some db := by
          rw [index_preserves_fs, hfs]
        simp [index_openedDuring, hfs2, index_nextConn, hfs] at hmem

/-- Witness for C8 at the concrete world `wTab`, instantiating the
quantified parts at the handle `0` actually opened there. -/
theorem connection_exclusive_ownership_witness :
    (index wTab).2.openConns = wTab.openConns ∧
    (wTab.nextConn ≤ 0 ∧ 0 < (index wTab).2.nextConn) ∧
    (wTab.nextConn ≤ 0 ∧ 0 < (dashboard_run wTab).2.nextConn) ∧
    0 ∉ openedDuring (index wTab).2 (index (index wTab).2).2 := by
  have h := connection_exclusive_ownership wTab
  exact ⟨h.1, h.2.1 0 (by decide), h.2.2.1 0 (by decide), h.2.2.2 0 (by decide)⟩

/-- C9: the request handler has exactly one failure condition — it fails
with a connection-error precisely when the database file cannot be opened,
and whenever the connection open succeeds it completes normally with the
fixed view and no other failure path is reachable. -/
theorem index_single_failure_mode (w : World) :
    (index w).1 =
      match w.fs with
      | none => .error .connectionError
      | some _ => .ok (render_template "index.html") := by
  cases hfs : w.fs <;>
    simp [index, get_db_connection, sqlite3_connect, conn_close, hfs]

/-- C10: noninterference — the handler's observable result is independent
of the database contents: any two invocations of `index` against openable
databases with arbitrary (possibly different) contents return the same
response. -/
theorem index_noninterference (w₁ w₂ : World) (db₁ db₂ : Database)
    (h₁ : w₁.fs = some db₁) (h₂ : w₂.fs = some db₂) :
    (index w₁).1 = (index w₂).1 := by
  simp [index, get_db_connection, sqlite3_connect, conn_close, h₁, h₂]

/-- Witness for C10: a three-row database and an empty database yield the
same handler response. -/
theorem index_noninterference_witness :
    wTab.fs = some ⟨[("your_table", sampleRows)]⟩ ∧
    wEmptyDB.fs = some ⟨[]⟩ ∧
    (index wTab).1 = (index wEmptyDB).1 :=
  ⟨rfl, rfl,
    index_noninterference wTab wEmptyDB ⟨[("your_table", sampleRows)]⟩ ⟨[]⟩
      rfl rfl⟩
